import Mathlib

/-!
Shallow embedding of the Language-Detection-Chatbot application
(src/app.py) and proofs of the specification claims about it.

The application loads two pickled artifacts (a classifier called
`model` and a `vectorizer`), keeps a fixed dictionary `responses` of
22 canned replies keyed by language label, and, on a button press,
either warns on blank input or vectorizes the input, predicts a label,
and looks the label up in the table with a fixed fallback.

The Vectorizer and the Classifier are opaque, externally trained
artifacts; they are embedded as parameters: functions that either
return a value or raise (modelled by `Except` with the Python
exception rendered as its message string).
-/

/-- The two loaded artifacts seen by the request handler.
`transform` embeds `vectorizer.transform`, applied in the source to a
batch (a Python list of strings); `predict` embeds `model.predict`,
whose output is the list of predicted labels for the batch.  A raised
Python exception is embedded as `Except.error` carrying the string the
handler would interpolate for it. -/
structure Resources (F : Type) where
  transform : List String → Except String F
  predict : F → Except String (List String)

/-- Outcome of one button press, as rendered by the handler:
a warning for blank input (src/app.py line 144), a detected label with
its reply (lines 161 and 166), or the error box (line 169). -/
inductive Outcome where
  | Empty (warning : String)
  | Detected (label : String) (reply : String)
  | Failure (msg : String)
deriving DecidableEq, Repr

/-- The rule-based reply table, verbatim from src/app.py lines 86-109. -/
def responses : List (String × String) :=
  [ ("English", "Hello! How can I help you?"),
    ("Hindi", "नमस्ते! मैं आपकी कैसे मदद कर सकता हूँ?"),
    ("French", "Bonjour ! Comment puis-je vous aider ?"),
    ("Spanish", "¡Hola! ¿Cómo puedo ayudarte?"),
    ("German", "Hallo! Wie kann ich Ihnen helfen?"),
    ("Arabic", "مرحباً! كيف يمكنني مساعدتك؟"),
    ("Russian", "Здравствуйте! Чем могу помочь?"),
    ("Chinese", "你好！我可以帮你什么？"),
    ("Japanese", "こんにちは！どのようにお手伝いできますか？"),
    ("Korean", "안녕하세요! 어떻게 도와드릴까요?"),
    ("Portuguese", "Olá! Como posso ajudar?"),
    ("Italian", "Ciao! Come posso aiutarti?"),
    ("Turkish", "Merhaba! Size nasıl yardımcı olabilirim?"),
    ("Tamil", "வணக்கம்! நான் உங்களுக்கு எப்படி உதவலாம்?"),
    ("Urdu", "السلام علیکم! میں آپ کی کیسے مدد کر سکتا ہوں؟"),
    ("Thai", "สวัสดี! ฉันช่วยคุณได้อย่างไร?"),
    ("Dutch", "Hallo! Hoe kan ik je helpen?"),
    ("Estonian", "Tere! Kuidas ma saan aidata?"),
    ("Romanian", "Salut! Cum te pot ajuta?"),
    ("Persian", "سلام! چگونه می‌توانم کمک کنم؟"),
    ("Indonesian", "Halo! Bagaimana saya bisa membantu?"),
    ("Latin", "Salve! Quomodo te adiuvare possum?") ]

/-- The fallback reply passed as default to `responses.get`
(src/app.py lines 155-158). -/
def fallbackReply : String :=
  "Sorry, I don\x27t have a canned response for this language yet."

/-- `responses.get(predicted_language, fallback)` from src/app.py
lines 155-158.  The dictionary keys are pairwise distinct, so a
first-match association-list lookup coincides with the Python dict. -/
def getReply (label : String) : String :=
  match responses.lookup label with
  | some r => r
  | none => fallbackReply

/-- Python `str.strip()` with no argument, as used on src/app.py
line 143: the text with leading and trailing whitespace removed. -/
def pyStrip (s : String) : String :=
  ⟨((s.data.dropWhile Char.isWhitespace).reverse.dropWhile
      Char.isWhitespace).reverse⟩

/-- The warning shown for blank input, src/app.py line 144. -/
def emptyInputWarning : String :=
  "Please enter some text in the message box above."

/-- The handler renders a caught exception `e` as
the f-string of src/app.py line 169. -/
def predictionErrorMsg (e : String) : String :=
  "An error occurred during prediction: " ++ e

/-- Stands for the message of the Python IndexError raised by the
indexing `[0]` on src/app.py line 152 when the prediction output is
empty; its exact text comes from the array library and is opaque here. -/
def emptyPredictionError : String :=
  "index 0 is out of bounds for axis 0 with size 0"

/-- Instrumented embedding of the button-press handler, src/app.py
lines 142-169.  Besides the rendered `Outcome` it returns the list of
argument batches passed to `vectorizer.transform` and the list of
feature vectors passed to `model.predict`, so that claims about which
calls are made (and with what arguments) can be stated.  The control
flow is exactly that of the source: blank check on the trimmed text,
then `transform([user_input])`, then `predict(...)` and indexing `[0]`,
with every exception caught and rendered. -/
def detectAndReplyTraced {F : Type} (res : Resources F) (text : String) :
    Outcome × List (List String) × List F :=
  if pyStrip text = "" then
    (Outcome.Empty emptyInputWarning, [], [])
  else
    match res.transform [text] with
    | Except.error e => (Outcome.Failure (predictionErrorMsg e), [[text]], [])
    | Except.ok v =>
      match res.predict v with
      | Except.error e => (Outcome.Failure (predictionErrorMsg e), [[text]], [v])
      | Except.ok [] =>
          (Outcome.Failure (predictionErrorMsg emptyPredictionError), [[text]], [v])
      | Except.ok (l :: _) => (Outcome.Detected l (getReply l), [[text]], [v])

/-- The request/response contract of the handler: the outcome rendered
for one input text. -/
def detect_and_reply {F : Type} (res : Resources F) (text : String) : Outcome :=
  (detectAndReplyTraced res text).1

/-- The batches passed to `vectorizer.transform` while handling `text`. -/
def transformCalls {F : Type} (res : Resources F) (text : String) :
    List (List String) :=
  (detectAndReplyTraced res text).2.1

/-- The feature vectors passed to `model.predict` while handling `text`. -/
def predictCalls {F : Type} (res : Resources F) (text : String) : List F :=
  (detectAndReplyTraced res text).2.2

/-- A sequence of independent requests served one after the other;
the handler keeps no state between button presses. -/
def serve {F : Type} (res : Resources F) (requests : List String) :
    List Outcome :=
  requests.map (detect_and_reply res)

/-- A Python exception during artifact loading: the dedicated
`FileNotFoundError` branch of src/app.py line 75, or any other
exception (line 78) with its rendered message. -/
inductive PyError where
  | fileNotFound (msg : String)
  | other (msg : String)
deriving DecidableEq, Repr

/-- Result of `load_resources`: both artifacts, or the script halted
(`st.stop`) after showing an error box. -/
inductive LoadResult (M V : Type) where
  | ok (model : M) (vectorizer : V)
  | halted (errMsg : String)

/-- The fixed error box text for `FileNotFoundError`,
src/app.py line 76. -/
def fileNotFoundMessage : String :=
  "🚨 *Error:* Model or Vectorizer file not found. Please ensure language_model.pkl and vectorizer.pkl are in the correct directory."

/-- The error box text produced for a caught loading exception:
the fixed both-artifact message for `FileNotFoundError`, or the
f-string of src/app.py line 79 otherwise. -/
def loadErrorMessage : PyError → String
  | PyError.fileNotFound _ => fileNotFoundMessage
  | PyError.other e => "🚨 *Error loading resources:* " ++ e

/-- `load_resources` from src/app.py lines 69-82.  The two pickle
loads are embedded as parameters (their outcome depends on the file
system); the model is loaded first, and the first exception wins:
its error box is shown and the script stops. -/
def load_resources {M V : Type} (loadModel : Except PyError M)
    (loadVectorizer : Except PyError V) : LoadResult M V :=
  match loadModel with
  | Except.error e => LoadResult.halted (loadErrorMessage e)
  | Except.ok m =>
    match loadVectorizer with
    | Except.error e => LoadResult.halted (loadErrorMessage e)
    | Except.ok v => LoadResult.ok m v

/-- Concrete artifacts for evaluation: the classifier always returns
the single label "French". -/
def frenchRes : Resources Nat where
  transform := fun _ => Except.ok 1
  predict := fun _ => Except.ok ["French"]

/-- Concrete artifacts whose transform raises. -/
def failRes : Resources Nat where
  transform := fun _ => Except.error "boom"
  predict := fun _ => Except.ok []

/-- Concrete artifacts whose predict raises. -/
def predictFailRes : Resources Nat where
  transform := fun _ => Except.ok 0
  predict := fun _ => Except.error "bad vector"

-- Helper lemmas describing the branches of the traced handler.

theorem traced_blank {F : Type} (res : Resources F) (t : String)
    (h : pyStrip t = "") :
    detectAndReplyTraced res t = (Outcome.Empty emptyInputWarning, [], []) := by
  simp [detectAndReplyTraced, h]

theorem traced_transform_error {F : Type} (res : Resources F) (t : String)
    (h : ¬ pyStrip t = "") (e : String) (he : res.transform [t] = Except.error e) :
    detectAndReplyTraced res t =
      (Outcome.Failure (predictionErrorMsg e), [[t]], []) := by
  simp [detectAndReplyTraced, h, he]

theorem traced_predict_error {F : Type} (res : Resources F) (t : String)
    (h : ¬ pyStrip t = "") (v : F) (hv : res.transform [t] = Except.ok v)
    (e : String) (he : res.predict v = Except.error e) :
    detectAndReplyTraced res t =
      (Outcome.Failure (predictionErrorMsg e), [[t]], [v]) := by
  simp [detectAndReplyTraced, h, hv, he]

theorem traced_no_preds {F : Type} (res : Resources F) (t : String)
    (h : ¬ pyStrip t = "") (v : F) (hv : res.transform [t] = Except.ok v)
    (hp : res.predict v = Except.ok []) :
    detectAndReplyTraced res t =
      (Outcome.Failure (predictionErrorMsg emptyPredictionError), [[t]], [v]) := by
  simp [detectAndReplyTraced, h, hv, hp]

theorem traced_detected {F : Type} (res : Resources F) (t : String)
    (h : ¬ pyStrip t = "") (v : F) (hv : res.transform [t] = Except.ok v)
    (l : String) (rest : List String)
    (hp : res.predict v = Except.ok (l :: rest)) :
    detectAndReplyTraced res t = (Outcome.Detected l (getReply l), [[t]], [v]) := by
  simp [detectAndReplyTraced, h, hv, hp]

theorem transformCalls_nonblank {F : Type} (res : Resources F) (t : String)
    (h : ¬ pyStrip t = "") : transformCalls res t = [[t]] := by
  cases hv : res.transform [t] with
  | error e => simp [transformCalls, traced_transform_error res t h e hv]
  | ok v =>
    cases hp : res.predict v with
    | error e => simp [transformCalls, traced_predict_error res t h v hv e hp]
    | ok preds =>
      cases preds with
      | nil => simp [transformCalls, traced_no_preds res t h v hv hp]
      | cons l rest => simp [transformCalls, traced_detected res t h v hv l rest hp]

/-- Claim C1: for a non-blank input whose predicted label is a key of
the reply table, the reply is exactly the table value for that label;
for a predicted label that is not a key, the reply is exactly the
fixed fallback string. -/
theorem c1_reply_matches_table {F : Type} (res : Resources F) (t : String)
    (h : ¬ pyStrip t = "") (v : F) (l : String) (rest : List String)
    (hv : res.transform [t] = Except.ok v)
    (hp : res.predict v = Except.ok (l :: rest)) :
    (∀ r, responses.lookup l = some r →
       detect_and_reply res t = Outcome.Detected l r) ∧
    (responses.lookup l = none →
       detect_and_reply res t = Outcome.Detected l fallbackReply) := by
  have hd := traced_detected res t h v hv l rest hp
  constructor
  · intro r hr
    simp [detect_and_reply, hd, getReply, hr]
  · intro hr
    simp [detect_and_reply, hd, getReply, hr]

theorem c1_witness :
    (¬ pyStrip "Bonjour" = "") ∧
    responses.lookup "French" = some "Bonjour ! Comment puis-je vous aider ?" ∧
    detect_and_reply frenchRes "Bonjour" =
      Outcome.Detected "French" "Bonjour ! Comment puis-je vous aider ?" := by
  refine ⟨by decide, by decide, ?_⟩
  exact (c1_reply_matches_table frenchRes "Bonjour" (by decide) 1 "French" []
    rfl rfl).1 "Bonjour ! Comment puis-je vous aider ?" (by decide)

/-- Claim C2: for an input whose whitespace-stripped form is empty,
the handler returns the Empty outcome with the fixed warning, and
neither transform nor predict is invoked. -/
theorem c2_blank_input {F : Type} (res : Resources F) (t : String)
    (h : pyStrip t = "") :
    detect_and_reply res t = Outcome.Empty emptyInputWarning ∧
    transformCalls res t = [] ∧ predictCalls res t = [] := by
  have hb := traced_blank res t h
  exact ⟨by simp [detect_and_reply, hb], by simp [transformCalls, hb],
    by simp [predictCalls, hb]⟩

theorem c2_witness :
    pyStrip "   " = "" ∧
    (detect_and_reply frenchRes "   " = Outcome.Empty emptyInputWarning ∧
      transformCalls frenchRes "   " = [] ∧ predictCalls frenchRes "   " = []) :=
  ⟨by decide, c2_blank_input frenchRes "   " (by decide)⟩

/-- Claim C3: for a non-blank input, an error raised by transform or
by predict yields a Failure outcome carrying the rendered message, and
the response to any later request is a function of that request alone,
independent of the earlier (possibly failing) requests. -/
theorem c3_prediction_failure {F : Type} (res : Resources F) (t : String)
    (h : ¬ pyStrip t = "") :
    (∀ e, res.transform [t] = Except.error e →
       detect_and_reply res t = Outcome.Failure (predictionErrorMsg e)) ∧
    (∀ v e, res.transform [t] = Except.ok v → res.predict v = Except.error e →
       detect_and_reply res t = Outcome.Failure (predictionErrorMsg e)) ∧
    (∀ (prior : List String) (t2 : String),
       (serve res (prior ++ [t2])).getLast? = some (detect_and_reply res t2)) := by
  refine ⟨?_, ?_, ?_⟩
  · intro e he
    simp [detect_and_reply, traced_transform_error res t h e he]
  · intro v e hv he
    simp [detect_and_reply, traced_predict_error res t h v hv e he]
  · intro prior t2
    simp [serve]

theorem c3_witness :
    (¬ pyStrip "hi" = "") ∧
    detect_and_reply failRes "hi" =
      Outcome.Failure "An error occurred during prediction: boom" :=
  ⟨by decide, (c3_prediction_failure failRes "hi" (by decide)).1 "boom" rfl⟩

/-- Claim C4: for a non-blank input the handler is total: the outcome
is either Detected or Failure; no exception escapes to the caller. -/
theorem c4_total {F : Type} (res : Resources F) (t : String)
    (h : ¬ pyStrip t = "") :
    (∃ l r, detect_and_reply res t = Outcome.Detected l r) ∨
    (∃ m, detect_and_reply res t = Outcome.Failure m) := by
  cases hv : res.transform [t] with
  | error e =>
    exact Or.inr ⟨predictionErrorMsg e,
      by simp [detect_and_reply, traced_transform_error res t h e hv]⟩
  | ok v =>
    cases hp : res.predict v with
    | error e =>
      exact Or.inr ⟨predictionErrorMsg e,
        by simp [detect_and_reply, traced_predict_error res t h v hv e hp]⟩
    | ok preds =>
      cases preds with
      | nil =>
        exact Or.inr ⟨predictionErrorMsg emptyPredictionError,
          by simp [detect_and_reply, traced_no_preds res t h v hv hp]⟩
      | cons l rest =>
        exact Or.inl ⟨l, getReply l,
          by simp [detect_and_reply, traced_detected res t h v hv l rest hp]⟩

theorem c4_witness :
    (¬ pyStrip "Bonjour" = "") ∧
    ((∃ l r, detect_and_reply frenchRes "Bonjour" = Outcome.Detected l r) ∨
     (∃ m, detect_and_reply frenchRes "Bonjour" = Outcome.Failure m)) :=
  ⟨by decide, c4_total frenchRes "Bonjour" (by decide)⟩

/-- Claim C5, counterexample: a missing classifier file and a missing
vectorizer file produce byte-identical halted results, so the
diagnostic does not identify which of the two artifacts failed. -/
theorem c5_counterexample :
    @load_resources Unit Unit
        (Except.error (PyError.fileNotFound "missing")) (Except.ok ()) =
      @load_resources Unit Unit
        (Except.ok ()) (Except.error (PyError.fileNotFound "missing")) := rfl

/-- Claim C5, amended: if either artifact load raises, the service
halts (refusing all detection requests) and shows the rendered
diagnostic; for a missing file the diagnostic is one fixed message
that names both artifact files, the classifier file among them, but
does not distinguish which of the two failed. -/
theorem c5_amended_diagnostic {M V : Type} (lm : Except PyError M)
    (lv : Except PyError V) :
    (∀ e, lm = Except.error e →
       load_resources lm lv = LoadResult.halted (loadErrorMessage e)) ∧
    (∀ m e, lm = Except.ok m → lv = Except.error e →
       load_resources lm lv = LoadResult.halted (loadErrorMessage e)) ∧
    (∀ s, loadErrorMessage (PyError.fileNotFound s) = fileNotFoundMessage) ∧
    (∃ a b, fileNotFoundMessage = a ++ "language_model.pkl" ++ b) ∧
    (∃ a b, fileNotFoundMessage = a ++ "vectorizer.pkl" ++ b) := by
  refine ⟨?_, ?_, fun s => rfl, ?_, ?_⟩
  · intro e he
    subst he
    rfl
  · intro m e hm he
    subst hm
    subst he
    rfl
  · exact ⟨"🚨 *Error:* Model or Vectorizer file not found. Please ensure ",
      " and vectorizer.pkl are in the correct directory.", by decide⟩
  · exact ⟨"🚨 *Error:* Model or Vectorizer file not found. Please ensure language_model.pkl and ",
      " are in the correct directory.", by decide⟩

theorem c5_amended_witness :
    @load_resources Unit Unit
        (Except.error (PyError.fileNotFound "f")) (Except.ok ()) =
      LoadResult.halted fileNotFoundMessage :=
  (@c5_amended_diagnostic Unit Unit
      (Except.error (PyError.fileNotFound "f")) (Except.ok ())).1
    (PyError.fileNotFound "f") rfl

/-- Claim C6: with fixed artifacts, the outcome is a deterministic
function of the input text: identical texts give identical outcomes,
also when served one after the other. -/
theorem c6_deterministic {F : Type} (res : Resources F) (t t2 : String)
    (h : t = t2) :
    detect_and_reply res t = detect_and_reply res t2 ∧
    ∃ o, serve res [t, t2] = [o, o] := by
  subst h
  exact ⟨rfl, detect_and_reply res t, by simp [serve]⟩

theorem c6_witness :
    ∃ o, serve frenchRes ["Bonjour", "Bonjour"] = [o, o] :=
  (c6_deterministic frenchRes "Bonjour" "Bonjour" rfl).2

/-- Claim C7: for a non-blank input the vectorizer receives exactly
one batch holding exactly that input; the classifier is applied once
to the resulting vector, and the label used for the lookup and the
Detected outcome is the first element of its prediction output. -/
theorem c7_single_batch_first_label {F : Type} (res : Resources F) (t : String)
    (h : ¬ pyStrip t = "") :
    transformCalls res t = [[t]] ∧
    (∀ v l rest, res.transform [t] = Except.ok v →
       res.predict v = Except.ok (l :: rest) →
       detect_and_reply res t = Outcome.Detected l (getReply l) ∧
       predictCalls res t = [v]) := by
  refine ⟨transformCalls_nonblank res t h, ?_⟩
  intro v l rest hv hp
  have hd := traced_detected res t h v hv l rest hp
  exact ⟨by simp [detect_and_reply, hd], by simp [predictCalls, hd]⟩

theorem c7_witness :
    transformCalls frenchRes "Bonjour" = [["Bonjour"]] ∧
    detect_and_reply frenchRes "Bonjour" =
      Outcome.Detected "French" (getReply "French") ∧
    predictCalls frenchRes "Bonjour" = [1] := by
  have h := c7_single_batch_first_label frenchRes "Bonjour" (by decide)
  exact ⟨h.1, (h.2 1 "French" [] rfl rfl).1, (h.2 1 "French" [] rfl rfl).2⟩

/-- Claim C8: the reply table has exactly 22 entries with pairwise
distinct language labels; being a plain definition it is built once
and never mutated. -/
theorem c8_reply_table_shape :
    responses.length = 22 ∧ (responses.map Prod.fst).Nodup := by
  exact ⟨rfl, by decide⟩

/-- Claim C9: resource loading is all-or-nothing: either both loads
succeeded and both artifacts are returned, or the script halts before
serving any request; no state serves with only one artifact loaded. -/
theorem c9_all_or_nothing {M V : Type} (lm : Except PyError M)
    (lv : Except PyError V) :
    (∃ m v, load_resources lm lv = LoadResult.ok m v ∧
       lm = Except.ok m ∧ lv = Except.ok v) ∨
    (∃ msg, load_resources lm lv = LoadResult.halted msg) := by
  cases lm with
  | error e => exact Or.inr ⟨_, rfl⟩
  | ok m =>
    cases lv with
    | error e => exact Or.inr ⟨_, rfl⟩
    | ok v => exact Or.inl ⟨m, v, rfl, rfl, rfl⟩

/-- Claim C10: for a non-blank input the exact original untrimmed
string is what the vectorizer receives; stripping is used only for the
emptiness test and never alters the text that is classified. -/
theorem c10_untrimmed_text_passed {F : Type} (res : Resources F) (t : String)
    (h : ¬ pyStrip t = "") :
    transformCalls res t = [[t]] :=
  transformCalls_nonblank res t h

theorem c10_witness :
    (¬ pyStrip "  Bonjour " = "") ∧
    transformCalls frenchRes "  Bonjour " = [["  Bonjour "]] ∧
    "  Bonjour " ≠ pyStrip "  Bonjour " :=
  ⟨by decide, c10_untrimmed_text_passed frenchRes "  Bonjour " (by decide),
    by decide⟩
